import Mathlib

/-!
Verification of the data/aggregation model and authorization rules of a
Conduit ("RealWorld") blogging backend (FastAPI + SQLAlchemy over a
relational store).

Embedding conventions:
* Each relational table is a `List` of row structures, kept in insertion
  order; `INSERT` appends, `DELETE ... WHERE p` filters with `!p`,
  `SELECT ... WHERE p` with `session.scalar` is `List.find?` (first row),
  `count(...)` is `List.length` of the filtered rows, `EXISTS` is `List.any`.
* A `SELECT` without `ORDER BY` returns rows in table order; `LIMIT l OFFSET o`
  is `(rows.drop o).take l`.
* SQL `NULL` comparisons (`col = NULL`) evaluate to false, as in SQL's
  three-valued logic collapsed at the `WHERE` clause.
* `datetime.now()` values and autoincrement ids are passed in explicitly as
  `Nat` parameters wherever the code calls them.
* Services raising typed exceptions are modelled with `Except AppError`;
  an endpoint that lets a non-business exception escape (an uncaught Python
  `AttributeError` / `KeyError`) is modelled with a dedicated error value,
  since such an exception is not one of the typed business errors.
* Password hashing (`app/services/password.py`) is not part of the sources;
  the hash and verify functions are taken as parameters.
-/

/-- Row of the `user` table (`app/sqlmodel/alembic_model.py`, class `User`). -/
structure UserRow where
  id : Nat
  username : String
  email : String
  password_hash : String
  bio : String
  image_url : Option String
  created_at : Nat
  deriving Repr, DecidableEq

/-- Row of the `follower` table: `follower_id` follows `following_id`. -/
structure FollowerRow where
  follower_id : Nat
  following_id : Nat
  created_at : Nat
  deriving Repr, DecidableEq

/-- Row of the `article` table. -/
structure ArticleRow where
  id : Nat
  author_id : Nat
  slug : String
  title : String
  description : String
  body : String
  created_at : Nat
  updated_at : Nat
  deriving Repr, DecidableEq

/-- Row of the `tag` table. -/
structure TagRow where
  id : Nat
  tag : String
  created_at : Nat
  deriving Repr, DecidableEq

/-- Row of the `article_tag` junction table. -/
structure ArticleTagRow where
  article_id : Nat
  tag_id : Nat
  created_at : Nat
  deriving Repr, DecidableEq

/-- Row of the `favorite` table: `user_id` favorited `article_id`. -/
structure FavoriteRow where
  user_id : Nat
  article_id : Nat
  created_at : Nat
  deriving Repr, DecidableEq

/-- Row of the `comment` table. -/
structure CommentRow where
  id : Nat
  article_id : Nat
  author_id : Nat
  body : String
  created_at : Nat
  updated_at : Nat
  deriving Repr, DecidableEq

/-- The relational database state: one list per table, in insertion order. -/
structure DB where
  users : List UserRow
  followers : List FollowerRow
  articles : List ArticleRow
  tags : List TagRow
  articleTags : List ArticleTagRow
  favorites : List FavoriteRow
  comments : List CommentRow
  deriving Repr, DecidableEq

/-- Typed business errors. The constructors mirror the exception classes the
services import from `app.core.exception` (`ArticleNotFoundException`,
`CommentNotFoundException`, `UserNotFoundException`,
`EmailAlreadyTakenException`, `UserNameAlreadyTakenException`,
`IncorrectLoginInputException`, `IncorrectJWTTokenException`).
Modelled from the spec: `app/core/exception.py` itself is not among the
sources, so the `notAuthorized` kind named by the spec's error taxonomy
(section 7) is included here as its own constructor; every other constructor
corresponds to an exception class that the source files import and raise. -/
inductive AppError where
  | articleNotFound
  | commentNotFound
  | userNotFound
  | emailAlreadyTaken
  | userNameAlreadyTaken
  | incorrectLoginInput
  | incorrectJWTToken
  | notAuthorized
  deriving Repr, DecidableEq

/-- Modelled from the spec: `app/core/slug.py` is not among the sources.
Base slug generation from a title per spec section 4.6 step 1: lowercase,
whitespace to hyphen, strip punctuation. -/
def slugify (title : String) : String :=
  String.mk (title.data.filterMap (fun c =>
    if c == ' ' then some ('-')
    else if c.isAlpha then some c.toLower
    else if c.isDigit then some c
    else none))

/-- Modelled from the spec: slug creation appends a generated disambiguating
short code to the base slug (spec section 4.6 step 2). The code generator's
randomness is modelled by passing the generated code in explicitly. -/
def make_slug_from_title (title : String) (code : String) : String :=
  slugify title ++ "-" ++ code

/-- Modelled from the spec: rebuilding a slug from a new title while keeping
an already-generated disambiguating code (used by `update_by_slug` when the
title changes). -/
def make_slug_from_title_and_code (title : String) (code : String) : String :=
  slugify title ++ "-" ++ code

/-- Modelled from the spec: the disambiguating "unique part" of a slug is the
generated code appended after the final hyphen (the slug's last
hyphen-separated segment, or the whole slug when it has no hyphen). -/
def get_slug_unique_part (slug : String) : String :=
  String.mk ((slug.data.reverse.takeWhile (fun c => !(c == '-'))).reverse)

/-- Boolean substring test, embedding SQLAlchemy's `column.contains(s)`
(SQL `LIKE %s%`): `needle` occurs contiguously inside `hay`. -/
def str_contains (hay needle : String) : Bool :=
  hay.data.tails.any (fun t => needle.data.isPrefixOf t)

/-- Embeds the lookup query shared by `ArticleService.get_by_slug_or_none` and
`ArticleService.get_by_slug` (`app/services/article.py`): the first article
whose slug equals the requested slug OR whose slug contains the unique part
extracted from the requested slug. -/
def ArticleService.get_by_slug_row (db : DB) (slug : String) : Option ArticleRow :=
  db.articles.find? (fun a =>
    a.slug == slug || str_contains a.slug (get_slug_unique_part slug))

/-- Embeds `ArticleService.get_by_slug_or_none`, at article-record level. -/
def ArticleService.get_by_slug_or_none (db : DB) (slug : String) : Option ArticleRow :=
  ArticleService.get_by_slug_row db slug

/-- Embeds `ArticleService.get_by_slug`: same query, raising
`ArticleNotFoundException` when no row matches. (The source then assembles a
full article DTO; the lookup semantics claimed about live in the query, so
the embedded function returns the article row.) -/
def ArticleService.get_by_slug (db : DB) (slug : String) : Except AppError ArticleRow :=
  match ArticleService.get_by_slug_row db slug with
  | none => .error .articleNotFound
  | some a => .ok a

/-- Embeds `FavoriteService.exists` (`app/services/favorite.py`). -/
def FavoriteService.exists_ (db : DB) (user_id article_id : Nat) : Bool :=
  db.favorites.any (fun f => f.user_id == user_id && f.article_id == article_id)

/-- Embeds `FavoriteService.count`: number of favorite rows for the article. -/
def FavoriteService.count (db : DB) (article_id : Nat) : Nat :=
  (db.favorites.filter (fun f => f.article_id == article_id)).length

/-- Embeds `FavoriteService.create`: unconditional insert plus commit. -/
def FavoriteService.create (db : DB) (article_id user_id now : Nat) : DB :=
  { db with favorites := db.favorites ++ [{ user_id := user_id, article_id := article_id, created_at := now }] }

/-- Embeds `FavoriteService.delete`: delete the (user, article) edge, commit. -/
def FavoriteService.delete (db : DB) (article_id user_id : Nat) : DB :=
  { db with favorites := db.favorites.filter (fun f =>
      !(f.user_id == user_id && f.article_id == article_id)) }

/-- Outcome of the `favorite_article` endpoint. There is no success
constructor: after committing the favorite edge, the handler calls
`article_service._build_article_schema_with_author` (`app/api/article.py`
line 181), a method that no longer exists on `ArticleService`
(`app/services/article.py` keeps it only as a comment noting it was replaced
by `_build_article_dto_from_db_result`), so every call that reaches that line
raises an uncaught `AttributeError`. -/
inductive FavoriteOutcome where
  | articleNotFound
  | unhandledException
  deriving Repr, DecidableEq

/-- Embeds the `favorite_article` endpoint (`app/api/article.py` lines
166-184): resolve the article by slug (404 when missing), then insert a
favorite edge only if none exists (`FavoriteService.exists` checked before
`FavoriteService.create`, which commits immediately), then crash with an
uncaught `AttributeError` while building the response. The returned `DB` is
the committed state (the favorite edge survives the later crash because
`FavoriteService.create` commits). -/
def favorite_article (db : DB) (userId : Nat) (slug : String) (now : Nat) :
    DB × FavoriteOutcome :=
  match ArticleService.get_by_slug_row db slug with
  | none => (db, .articleNotFound)
  | some a =>
    let db1 := if FavoriteService.exists_ db userId a.id then db
               else FavoriteService.create db a.id userId now
    (db1, .unhandledException)

/-- Comment enriched with its author profile, as assembled by
`CommentService._build_comment_dto_with_profile` (`app/services/comment.py`). -/
structure CommentDTO where
  id : Nat
  body : String
  author_username : String
  author_following : Bool
  deriving Repr, DecidableEq

/-- Embeds `CommentService._build_comment_dto_with_profile`: look up the
comment's author (raising `UserNotFoundException` when absent) and compute the
viewer-relative `following` flag through `FollowerService.exists`. -/
def CommentService.build_comment_dto (db : DB) (c : CommentRow) (viewer : Option Nat) :
    Except AppError CommentDTO :=
  match db.users.find? (fun u => u.id == c.author_id) with
  | none => .error .userNotFound
  | some u =>
    .ok { id := c.id, body := c.body, author_username := u.username,
          author_following :=
            match viewer with
            | some v => db.followers.any (fun f => f.follower_id == v && f.following_id == u.id)
            | none => false }

/-- Embeds `CommentService.get_comments_for_article`: resolve the article by
exact slug (this query does not use the fuzzy slug lookup), then build a DTO
for each comment of the article, in table order. -/
def CommentService.get_comments_for_article (db : DB) (slug : String) (viewer : Option Nat) :
    Except AppError (List CommentDTO) :=
  match db.articles.find? (fun a => a.slug == slug) with
  | none => .error .articleNotFound
  | some article =>
    (db.comments.filter (fun c => c.article_id == article.id)).mapM
      (fun c => CommentService.build_comment_dto db c viewer)

/-- Embeds `CommentService.delete_comment_from_article`: resolve the article by
exact slug (`ArticleNotFoundException`), find the comment scoped to the article
(`CommentNotFoundException`), and when the viewer is not the comment's author
raise `UserNotFoundException` — the source raises
`UserNotFoundException("You are not authorized to delete this comment.")`,
not a not-authorized error kind. On success the comment row is deleted and
the session committed. -/
def CommentService.delete_comment_from_article (db : DB) (slug : String)
    (comment_id viewer_id : Nat) : Except AppError DB :=
  match db.articles.find? (fun a => a.slug == slug) with
  | none => .error .articleNotFound
  | some article =>
    match db.comments.find? (fun c => c.id == comment_id && c.article_id == article.id) with
    | none => .error .commentNotFound
    | some c =>
      if c.author_id != viewer_id then .error .userNotFound
      else .ok { db with comments := db.comments.filter (fun c2 => !(c2.id == comment_id)) }

/-- Data carried by a registration request
(`UserRegistrationDataDTO` in `app/schemas/user.py`). -/
structure UserRegistrationData where
  username : String
  email : String
  password : String
  deriving Repr, DecidableEq

/-- Embeds `UserService.get_by_email_or_none`: first user with the email. -/
def UserService.get_by_email_or_none (db : DB) (email : String) : Option UserRow :=
  db.users.find? (fun u => u.email == email)

/-- Embeds `UserService.get_by_username_or_none`. -/
def UserService.get_by_username_or_none (db : DB) (username : String) : Option UserRow :=
  db.users.find? (fun u => u.username == username)

/-- Embeds `UserService.get_by_email`: raises `UserNotFoundException` when
no user carries the email. -/
def UserService.get_by_email (db : DB) (email : String) : Except AppError UserRow :=
  match UserService.get_by_email_or_none db email with
  | none => .error .userNotFound
  | some u => .ok u

/-- Embeds `UserService.add` (`app/services/user.py`): query for an existing
user by email (raising `EmailAlreadyTakenException`), then by username
(raising `UserNameAlreadyTakenException`), and only then insert the new row
with the hashed password and commit. `hash` stands for
`get_password_hash` (from `app/services/password.py`, not among the sources).
An error outcome carries no database, reflecting that nothing was inserted. -/
def UserService.add (hash : String → String) (db : DB) (item : UserRegistrationData)
    (now newId : Nat) : Except AppError (DB × UserRow) :=
  match UserService.get_by_email_or_none db item.email with
  | some _ => .error .emailAlreadyTaken
  | none =>
    match UserService.get_by_username_or_none db item.username with
    | some _ => .error .userNameAlreadyTaken
    | none =>
      let row : UserRow :=
        { id := newId, username := item.username, email := item.email,
          password_hash := hash item.password, bio := "",
          image_url := some ("https://api.realworld.io/images/smiley-cyrus.jpeg"),
          created_at := now }
      .ok ({ db with users := db.users ++ [row] }, row)

/-- Embeds `UserAuthService.sign_in_user` (`app/services/auth.py`): look the
user up by email, turning `UserNotFoundException` into
`IncorrectLoginInputException`; then verify the password against the stored
hash, raising the same `IncorrectLoginInputException` on mismatch. `verify`
stands for `verify_password(plain, hashed)` (from `app/services/password.py`,
not among the sources). The source wraps the user into a `LoggedInUserDTO`
with a fresh JWT; the embedded function returns the authenticated user row. -/
def UserAuthService.sign_in_user (verify : String → String → Bool) (db : DB)
    (email password : String) : Except AppError UserRow :=
  match UserService.get_by_email db email with
  | .error _ => .error .incorrectLoginInput
  | .ok u =>
    if !(verify password u.password_hash) then .error .incorrectLoginInput
    else .ok u

/-- Decoded JWT payload as a Python dict: each claim may be absent.
`exp` is a timestamp in seconds. -/
structure JwtPayload where
  user_id : Option Nat
  username : Option String
  exp : Option Nat
  deriving Repr, DecidableEq

/-- A token string from the service's point of view: either it verifies
against the service's secret and decodes to a payload dict, or it is
malformed / carries an invalid signature. -/
inductive JwtToken where
  | signed (payload : JwtPayload)
  | invalid
  deriving Repr, DecidableEq

/-- Errors raised by the `jwt.decode` library call: `invalidToken` covers
malformed tokens and bad signatures (`jwt.InvalidTokenError`);
`expiredSignature` is `jwt.ExpiredSignatureError`, a subclass of
`jwt.InvalidTokenError`, raised when a present `exp` claim lies in the past.
When `exp` is absent the library performs no expiry check. -/
inductive JwtDecodeError where
  | invalidToken
  | expiredSignature
  deriving Repr, DecidableEq

/-- Embeds the `jwt.decode(token, secret, algorithms)` call used by
`AuthTokenService.parse_jwt_token`. -/
def jwtDecode (now : Nat) : JwtToken → Except JwtDecodeError JwtPayload
  | .invalid => .error .invalidToken
  | .signed p =>
    match p.exp with
    | some e => if e < now then .error .expiredSignature else .ok p
    | none => .ok p

/-- The validated token claims (`TokenPayload` in `app/schemas/auth.py`,
not among the sources; fields per the spec's token-claims shape). -/
structure TokenPayload where
  user_id : Nat
  username : String
  exp : Nat
  deriving Repr, DecidableEq

/-- How a `parse_jwt_token` call fails: `incorrectJWTToken` is the typed
`IncorrectJWTTokenException`; `keyErrorExp` is an uncaught Python `KeyError`
escaping the handler, which catches only `jwt.InvalidTokenError` and
pydantic's `ValidationError`. -/
inductive ParseFailure where
  | incorrectJWTToken
  | keyErrorExp
  deriving Repr, DecidableEq

/-- Embeds `AuthTokenService.parse_jwt_token` (`app/services/auth_token.py`):
decode the token (both decode errors are `jwt.InvalidTokenError`s and are
caught, raising `IncorrectJWTTokenException`); then evaluate
`payload["exp"]` — a `KeyError` (uncaught) when the decoded payload has no
`exp` claim; finally validate the payload into `TokenPayload`, turning a
pydantic `ValidationError` (missing `user_id`/`username`) into
`IncorrectJWTTokenException`. -/
def AuthTokenService.parse_jwt_token (now : Nat) (t : JwtToken) :
    Except ParseFailure TokenPayload :=
  match jwtDecode now t with
  | .error _ => .error .incorrectJWTToken
  | .ok p =>
    match p.exp with
    | none => .error .keyErrorExp
    | some e =>
      match p.user_id, p.username with
      | some uid, some un => .ok { user_id := uid, username := un, exp := e }
      | _, _ => .error .incorrectJWTToken

/-- Data of an article-creation request (`CreateArticleDTO`). -/
structure CreateArticleData where
  title : String
  description : String
  body : String
  tags : List String
  deriving Repr, DecidableEq

/-- Embeds `ArticleService.add` (`app/services/article.py`): insert a new
article row whose slug is `make_slug_from_title(title)`; `code` is the
generated disambiguating code of that call (see `make_slug_from_title`).
Tag linking is done separately by the endpoint through
`ArticleTagService.add_many`. There is no retry loop: the insert happens
once with the generated slug. -/
def ArticleService.add (db : DB) (author_id : Nat) (item : CreateArticleData)
    (code : String) (now newId : Nat) : DB × ArticleRow :=
  let row : ArticleRow :=
    { id := newId, author_id := author_id,
      slug := make_slug_from_title item.title code,
      title := item.title, description := item.description, body := item.body,
      created_at := now, updated_at := now }
  ({ db with articles := db.articles ++ [row] }, row)

/-- Data of an article-update patch (`UpdateArticleDTO`): absent fields are
left unchanged; `tags`, when present, is the full replacement tag list. -/
structure UpdateArticleData where
  title : Option String
  description : Option String
  body : Option String
  tags : Option (List String)
  deriving Repr, DecidableEq

/-- Outcome of `ArticleService.update_by_slug`. `noResultFound` /
`multipleResultsFound` model `result.scalar_one()` raising when the exact-slug
`UPDATE ... RETURNING` matches zero or several rows. `unhandledException`
models the uncaught Python `AttributeError` raised on the tag-replacement
path: the source builds `insert(Tag).on_conflict_do_nothing(...)` with the
generic `sqlalchemy.insert` construct (imported at the top of
`app/services/article.py`), which — unlike the PostgreSQL-dialect insert used
in `app/services/article_tag.py` — has no `on_conflict_do_nothing` method. -/
inductive UpdateOutcome where
  | ok (updated : ArticleRow)
  | noResultFound
  | multipleResultsFound
  | unhandledException
  deriving Repr, DecidableEq

/-- Applies the field updates of `update_by_slug` to the matched article row:
`updated_at` is refreshed; a new title regenerates the slug from the new title
and the old slug's unique part; description and body are overwritten when
present. -/
def applyArticlePatch (a : ArticleRow) (item : UpdateArticleData) (now : Nat) : ArticleRow :=
  let a1 := { a with updated_at := now }
  let a2 := match item.title with
    | some t =>
      { a1 with
        title := t
        slug := make_slug_from_title_and_code t (get_slug_unique_part a.slug) }
    | none => a1
  let a3 := match item.description with
    | some d => { a2 with description := d }
    | none => a2
  match item.body with
  | some b => { a3 with body := b }
  | none => a3

/-- Embeds `ArticleService.update_by_slug` (`app/services/article.py` lines
174-240). The article row matching the slug exactly is updated. When the
patch carries a tag list the source first deletes every `ArticleTag` row of
the article, then — for a nonempty list — attempts
`insert(Tag).on_conflict_do_nothing(...)` on the generic (non-dialect) insert
construct, which raises an uncaught `AttributeError`; the session is rolled
back, so the returned database is the original one. For an empty tag list the
delete-then-commit completes. For a patch without tags the row update is
returned to the caller with no commit issued by this method. -/
def ArticleService.update_by_slug (db : DB) (slug : String) (item : UpdateArticleData)
    (now : Nat) : DB × UpdateOutcome :=
  match db.articles.filter (fun a => a.slug == slug) with
  | [] => (db, .noResultFound)
  | [a] =>
    let a1 := applyArticlePatch a item now
    let dbU := { db with articles := db.articles.map (fun x => if x.slug == slug then a1 else x) }
    match item.tags with
    | none => (dbU, .ok a1)
    | some [] =>
      ({ dbU with articleTags := dbU.articleTags.filter (fun e => !(e.article_id == a.id)) },
       .ok a1)
    | some (_ :: _) => (db, .unhandledException)
  | _ :: _ :: _ => (db, .multipleResultsFound)

/-- Result of a listing query: the returned page of article rows and the
separately computed total (`ArticlesFeedDTO`). The source decorates each page
row into a full article DTO (author snapshot, tags, favorite data); the
properties claimed about listings concern page membership, page order and the
total, so the page is kept at article-row level. -/
structure ArticlesFeed where
  articles : List ArticleRow
  articles_count : Nat
  deriving Repr, DecidableEq

/-- Embeds `ArticleService.count_by_followings`: `count(Article.id)` over
`Article JOIN Follower ON following_id = author_id AND follower_id = user_id`,
with no limit or offset — each article contributes one counted row per
matching follower edge. -/
def ArticleService.count_by_followings (db : DB) (user_id : Nat) : Nat :=
  (db.articles.map (fun a =>
    (db.followers.filter (fun fr =>
      fr.following_id == a.author_id && fr.follower_id == user_id)).length)).sum

/-- Embeds `ArticleService.count_by_filters`: `count(Article.id)` over the
joins added per present filter. Per article, the tag filter contributes one
row per (`ArticleTag` edge, `Tag` row) pair matching the tag string; the
author filter one row per user row matching the article's author id and the
username; the favorited filter one row per favorite edge of the article whose
user id equals the scalar subquery `User.id WHERE username = favorited` — a
comparison with the NULL scalar (no such user) matching no row. Joins
multiply per article, and no limit or offset applies. -/
def ArticleService.count_by_filters (db : DB) (tag author favorited : Option String) : Nat :=
  (db.articles.map (fun a =>
    (match tag with
     | none => 1
     | some t =>
       ((db.articleTags.filter (fun e => e.article_id == a.id)).flatMap
         (fun e => db.tags.filter (fun tr => tr.id == e.tag_id && tr.tag == t))).length)
    * (match author with
       | none => 1
       | some an => (db.users.filter (fun u => u.id == a.author_id && u.username == an)).length)
    * (match favorited with
       | none => 1
       | some fn =>
         match db.users.find? (fun u => u.username == fn) with
         | some u => (db.favorites.filter (fun fv =>
             fv.article_id == a.id && fv.user_id == u.id)).length
         | none => 0))).sum

/-- Outer-join wrapping: a join that found no partner still produces a single
row with NULL columns. -/
def outerRows {α : Type} (l : List α) : List (Option α) :=
  match l with
  | [] => [none]
  | l => l.map some

/-- The `LEFT OUTER JOIN User` rows of one article in `list_by_filters_v2`. -/
def userRowsFor (db : DB) (a : ArticleRow) : List (Option UserRow) :=
  outerRows (db.users.filter (fun u => u.id == a.author_id))

/-- The `LEFT OUTER JOIN ArticleTag LEFT OUTER JOIN Tag` rows of one article:
one row per tag edge (with its matching tag rows, or a NULL tag when the
edge's tag id dangles), or a single NULL row when the article has no edges. -/
def tagRowsFor (db : DB) (a : ArticleRow) : List (Option TagRow) :=
  match db.articleTags.filter (fun e => e.article_id == a.id) with
  | [] => [none]
  | edges => edges.flatMap (fun e => outerRows (db.tags.filter (fun tr => tr.id == e.tag_id)))

/-- The `LEFT OUTER JOIN Favorite` rows of one article. -/
def favRowsFor (db : DB) (a : ArticleRow) : List (Option FavoriteRow) :=
  outerRows (db.favorites.filter (fun fv => fv.article_id == a.id))

/-- The WHERE conditions `list_by_filters_v2` appends per present filter,
evaluated on one joined row; a comparison against a NULL column or against
the NULL favorited-user scalar subquery is false. -/
def filtersRowConds (db : DB) (tag author favorited : Option String)
    (uo : Option UserRow) (tro : Option TagRow) (fo : Option FavoriteRow) : Bool :=
  (match author with
   | none => true
   | some an => match uo with
     | some u => u.username == an
     | none => false)
  && (match tag with
      | none => true
      | some t => match tro with
        | some tr => tr.tag == t
        | none => false)
  && (match favorited with
      | none => true
      | some fn =>
        match db.users.find? (fun u => u.username == fn), fo with
        | some u, some fv => fv.user_id == u.id
        | _, _ => false)

/-- An article row of `list_by_filters_v2` survives (its GROUP BY group is
nonempty) precisely when some joined row satisfies every present filter. -/
def filtersRowExists (db : DB) (tag author favorited : Option String) (a : ArticleRow) : Bool :=
  (userRowsFor db a).any (fun uo =>
    (tagRowsFor db a).any (fun tro =>
      (favRowsFor db a).any (fun fo => filtersRowConds db tag author favorited uo tro fo)))

/-- Embeds `ArticleService.list_by_filters_v2` (`app/services/article.py`
lines 472-556): the filtered, grouped page — the query has NO `ORDER BY`, so
the page keeps table order — with `LIMIT limit OFFSET offset`, and the total
computed by the separate `count_by_filters` query with limit and offset
ignored. The viewer id only shapes the per-row `favorited`/`following`
display flags, which are not part of the page rows here. -/
def ArticleService.list_by_filters_v2 (db : DB) (limit offset : Nat)
    (tag author favorited : Option String) : ArticlesFeed :=
  { articles := ((db.articles.filter (filtersRowExists db tag author favorited)).drop offset).take limit
    articles_count := ArticleService.count_by_filters db tag author favorited }

/-- An article survives the feed query of `list_by_followings_v2`: its author
row exists (INNER JOIN `User`), the author is in the viewer's followings
(the `IN` subquery on `Follower`), and the article has at least one tag edge
with an existing tag row (INNER JOINs on `ArticleTag` and `Tag`). -/
def feedRowExists (db : DB) (user_id : Nat) (a : ArticleRow) : Bool :=
  db.users.any (fun u =>
    u.id == a.author_id
    && ((db.followers.filter (fun fr => fr.follower_id == user_id)).map
        (fun fr => fr.following_id)).contains u.id
    && db.articleTags.any (fun e =>
        e.article_id == a.id && db.tags.any (fun tr => tr.id == e.tag_id)))

/-- Embeds `ArticleService.list_by_followings_v2` (`app/services/article.py`
lines 312-378), the query behind the `/articles/feed` endpoint: the grouped
page of articles by followed authors — the query has NO `ORDER BY`, so the
page keeps table order — with `LIMIT limit OFFSET offset`, and the total
computed by `count_by_followings` with limit and offset ignored. -/
def ArticleService.list_by_followings_v2 (db : DB) (user_id limit offset : Nat) : ArticlesFeed :=
  { articles := ((db.articles.filter (feedRowExists db user_id)).drop offset).take limit
    articles_count := ArticleService.count_by_followings db user_id }

/-- Specification-side predicate (for comparison with the implementation):
an article matches the global-list filter when it carries the tag (if a tag
filter is present), its author row matches the author username (if present),
and it is favorited by the user named by the favorited filter (if present;
an unknown username matches nothing). AND-combined, all optional. -/
def matchesFilter (db : DB) (tag author favorited : Option String) (a : ArticleRow) : Bool :=
  (match tag with
   | none => true
   | some t => db.articleTags.any (fun e =>
       e.article_id == a.id && db.tags.any (fun tr => tr.id == e.tag_id && tr.tag == t)))
  && (match author with
      | none => true
      | some an => db.users.any (fun u => u.id == a.author_id && u.username == an))
  && (match favorited with
      | none => true
      | some fn =>
        match db.users.find? (fun u => u.username == fn) with
        | some u => db.favorites.any (fun fv => fv.article_id == a.id && fv.user_id == u.id)
        | none => false)

/-- Specification-side predicate: a page is ordered newest-created first. -/
def newestFirst : List ArticleRow → Bool
  | [] => true
  | [_] => true
  | a :: b :: rest => (b.created_at ≤ a.created_at) && newestFirst (b :: rest)

/-- Well-formedness of a database state per the schema's primary keys and
unique columns (`app/sqlmodel/alembic_model.py`): unique user ids and
usernames, unique tag ids and tag strings, and composite primary keys on the
follower, favorite and article-tag junction tables. -/
structure DBInv (db : DB) : Prop where
  users_id_nodup : (db.users.map (fun u => u.id)).Nodup
  users_name_nodup : (db.users.map (fun u => u.username)).Nodup
  tags_id_nodup : (db.tags.map (fun tr => tr.id)).Nodup
  tags_str_nodup : (db.tags.map (fun tr => tr.tag)).Nodup
  followers_nodup : (db.followers.map (fun fr => (fr.follower_id, fr.following_id))).Nodup
  favorites_nodup : (db.favorites.map (fun fv => (fv.article_id, fv.user_id))).Nodup
  articleTags_nodup : (db.articleTags.map (fun e => (e.article_id, e.tag_id))).Nodup

/-- Example user: article author. -/
def uAnn : UserRow :=
  { id := 1, username := "ann", email := "ann@mail", password_hash := "h1",
    bio := "", image_url := none, created_at := 0 }

/-- Example user: a second, distinct user. -/
def uBob : UserRow :=
  { id := 2, username := "bob", email := "bob@mail", password_hash := "h2",
    bio := "", image_url := none, created_at := 0 }

/-- Example article by `uAnn` with no favorites. -/
def artHello : ArticleRow :=
  { id := 1, author_id := 1, slug := "hello-world-c0de", title := "Hello World",
    description := "d", body := "b", created_at := 0, updated_at := 0 }

/-- Database for the favoriting scenario: two users, one article, no
favorite edges yet. -/
def dbFav : DB :=
  { users := [uAnn, uBob], followers := [], articles := [artHello],
    tags := [], articleTags := [], favorites := [], comments := [] }

/-- Example comment on `artHello`, written by `uAnn`. -/
def comIntro : CommentRow :=
  { id := 5, article_id := 1, author_id := 1, body := "hi",
    created_at := 0, updated_at := 0 }

/-- Database for the comment-deletion scenario. -/
def dbCom : DB :=
  { users := [uAnn, uBob], followers := [], articles := [artHello],
    tags := [], articleTags := [], favorites := [], comments := [comIntro] }

/-- `dbCom` after the author deletes the comment. -/
def dbComDel : DB := { dbCom with comments := [] }

/-- Example article carrying one tag, for the tag-replacement scenario. -/
def artPost : ArticleRow :=
  { id := 7, author_id := 1, slug := "post-z7", title := "Post",
    description := "d", body := "b", created_at := 0, updated_at := 0 }

/-- Example pre-existing tag. -/
def tagOld : TagRow := { id := 3, tag := "old", created_at := 0 }

/-- Database for the tag-replacement scenario: one article linked to `tagOld`. -/
def dbTagUpd : DB :=
  { users := [uAnn], followers := [], articles := [artPost], tags := [tagOld],
    articleTags := [{ article_id := 7, tag_id := 3, created_at := 0 }],
    favorites := [], comments := [] }

/-- A patch that only replaces the tag list. -/
def patchTags : UpdateArticleData :=
  { title := none, description := none, body := none, tags := some (["a", "b"]) }

/-- Feed scenario: the viewer. -/
def uViewer : UserRow :=
  { id := 10, username := "viewer", email := "v@mail", password_hash := "h3",
    bio := "", image_url := none, created_at := 0 }

/-- Feed scenario: the followed author. -/
def uAuthor : UserRow :=
  { id := 20, username := "author", email := "a@mail", password_hash := "h4",
    bio := "", image_url := none, created_at := 0 }

/-- Feed scenario: the earlier-created article (inserted first). -/
def artFeedOld : ArticleRow :=
  { id := 1, author_id := 20, slug := "one-a1", title := "One",
    description := "d", body := "b", created_at := 1, updated_at := 1 }

/-- Feed scenario: the later-created article (inserted second). -/
def artFeedNew : ArticleRow :=
  { id := 2, author_id := 20, slug := "two-b2", title := "Two",
    description := "d", body := "b", created_at := 2, updated_at := 2 }

/-- Feed scenario: the shared tag. -/
def tagT : TagRow := { id := 1, tag := "t", created_at := 0 }

/-- Database for the feed scenario: the viewer follows the author, who has two
tagged articles stored oldest-first. -/
def dbFeed : DB :=
  { users := [uViewer, uAuthor],
    followers := [{ follower_id := 10, following_id := 20, created_at := 0 }],
    articles := [artFeedOld, artFeedNew], tags := [tagT],
    articleTags := [{ article_id := 1, tag_id := 1, created_at := 0 },
                    { article_id := 2, tag_id := 1, created_at := 0 }],
    favorites := [], comments := [] }

/-- Database for the fuzzy-slug scenario: one article whose slug carries the
unique code `abc123`. -/
def artFuzzy : ArticleRow :=
  { id := 4, author_id := 1, slug := "hello-world-abc123", title := "Hello World",
    description := "d", body := "b", created_at := 0, updated_at := 0 }

/-- Database containing only `artFuzzy`. -/
def dbFuzzy : DB :=
  { users := [uAnn], followers := [], articles := [artFuzzy],
    tags := [], articleTags := [], favorites := [], comments := [] }

/-- The empty database. -/
def dbEmpty : DB :=
  { users := [], followers := [], articles := [], tags := [],
    articleTags := [], favorites := [], comments := [] }

/-- A filter on an exact key matches at most one row when the key column is
unique. -/
theorem length_filter_key_le_one {α β : Type} [BEq β] [LawfulBEq β]
    (l : List α) (key : α → β) (k : β) (h : (l.map key).Nodup) :
    (l.filter (fun x => key x == k)).length ≤ 1 := by
  induction l with
  | nil => simp
  | cons x t ih =>
    rw [List.map_cons, List.nodup_cons] at h
    by_cases hx : (key x == k) = true
    · have ht : t.filter (fun y => key y == k) = [] := by
        rw [List.filter_eq_nil_iff]
        intro y hy hky
        apply h.1
        rw [beq_iff_eq] at hx hky
        have hxy : key x = key y := by rw [hx, hky]
        exact hxy ▸ List.mem_map_of_mem key hy
      simp [List.filter_cons, hx, ht]
    · simp only [List.filter_cons, hx, if_false]
      exact ih h.2

/-- A filter on an exact key pair matches at most one row when the pair is a
primary key. -/
theorem length_filter_pair_le_one {α : Type} (l : List α) (f g : α → Nat) (A B : Nat)
    (h : (l.map (fun x => (f x, g x))).Nodup) :
    (l.filter (fun x => f x == A && g x == B)).length ≤ 1 := by
  induction l with
  | nil => simp
  | cons x t ih =>
    rw [List.map_cons, List.nodup_cons] at h
    by_cases hx : (f x == A && g x == B) = true
    · have ht : t.filter (fun y => f y == A && g y == B) = [] := by
        rw [List.filter_eq_nil_iff]
        intro y hy hky
        apply h.1
        rw [Bool.and_eq_true, beq_iff_eq, beq_iff_eq] at hx hky
        have : (f y, g y) = (f x, g x) := by
          rw [hky.1, hky.2, hx.1, hx.2]
        exact this ▸ List.mem_map_of_mem (fun z => (f z, g z)) hy
      simp [List.filter_cons, hx, ht]
    · simp only [List.filter_cons, hx, if_false]
      exact ih h.2

/-- Restricting a junction table to one value of the first key component
leaves distinct values of the second component. -/
theorem nodup_key2_of_filter_key1 {α : Type} (l : List α) (f g : α → Nat) (A : Nat)
    (h : (l.map (fun x => (f x, g x))).Nodup) :
    ((l.filter (fun x => f x == A)).map g).Nodup := by
  induction l with
  | nil => simp
  | cons x t ih =>
    rw [List.map_cons, List.nodup_cons] at h
    by_cases hx : (f x == A) = true
    · rw [List.filter_cons, if_pos hx, List.map_cons, List.nodup_cons]
      refine ⟨?_, ih h.2⟩
      intro hmem
      obtain ⟨y, hy, hgy⟩ := List.mem_map.mp hmem
      have hyt := List.mem_filter.mp hy
      apply h.1
      rw [beq_iff_eq] at hx
      have hfy : f y = A := beq_iff_eq.mp hyt.2
      have : (f y, g y) = (f x, g x) := by rw [hfy, hgy, hx]
      exact this ▸ List.mem_map_of_mem (fun z => (f z, g z)) hyt.1
    · rw [List.filter_cons, if_neg hx]
      exact ih h.2

/-- Swapping the components of a key pair preserves uniqueness. -/
theorem nodup_map_pair_swap {α : Type} (l : List α) (f g : α → Nat)
    (h : (l.map (fun x => (f x, g x))).Nodup) :
    (l.map (fun x => (g x, f x))).Nodup := by
  have heq : l.map (fun x => (g x, f x)) = (l.map (fun x => (f x, g x))).map Prod.swap := by
    rw [List.map_map]
    rfl
  rw [heq]
  exact h.map Prod.swap_injective

/-- A filter matching at most one row has length one exactly when some row
matches. -/
theorem length_filter_eq_ite_any {α : Type} (l : List α) (p : α → Bool)
    (h : (l.filter p).length ≤ 1) :
    (l.filter p).length = if l.any p then 1 else 0 := by
  by_cases ha : l.any p = true
  · rw [if_pos ha]
    obtain ⟨x, hx, hp⟩ := List.any_eq_true.mp ha
    have hne : l.filter p ≠ [] := by
      intro hnil
      have := List.filter_eq_nil_iff.mp hnil x hx
      exact this hp
    have := List.length_pos.mpr hne
    omega
  · rw [if_neg ha]
    have : l.filter p = [] := by
      rw [List.filter_eq_nil_iff]
      intro x hx hp
      exact ha (List.any_eq_true.mpr ⟨x, hx, hp⟩)
    simp [this]

/-- Summing a per-element 0/1 indicator counts the matching elements. -/
theorem sum_map_eq_countP_of_factors {α : Type} (l : List α) (f : α → Nat) (p : α → Bool)
    (h : ∀ a ∈ l, f a = if p a then 1 else 0) :
    (l.map f).sum = l.countP p := by
  induction l with
  | nil => simp
  | cons a t ih =>
    rw [List.map_cons, List.sum_cons, List.countP_cons,
        h a (List.mem_cons_self a t),
        ih (fun x hx => h x (List.mem_cons_of_mem a hx))]
    by_cases hp : p a = true <;> simp [hp]
    omega

/-- A product of three 0/1 indicators is the indicator of the conjunction. -/
theorem mul_ite3 (b1 b2 b3 : Bool) :
    ((if b1 then 1 else 0) * (if b2 then 1 else 0) * (if b3 then 1 else 0) : Nat)
      = if (b1 && b2 && b3) then 1 else 0 := by
  cases b1 <;> cases b2 <;> cases b3 <;> simp

/-- Joining a duplicate-free list of tag ids against a tag table with unique
ids and unique tag strings, keeping only rows with a given tag string, yields
exactly one row when some id resolves to that string, and none otherwise. -/
theorem tag_join_length (tags : List TagRow) (t : String) (es : List Nat)
    (hes : es.Nodup) (hid : (tags.map (fun tr => tr.id)).Nodup)
    (hstr : (tags.map (fun tr => tr.tag)).Nodup) :
    (es.flatMap (fun tid => tags.filter (fun tr => tr.id == tid && tr.tag == t))).length
      = if es.any (fun tid => tags.any (fun tr => tr.id == tid && tr.tag == t)) then 1 else 0 := by
  induction es with
  | nil => simp
  | cons tid rest ih =>
    rw [List.nodup_cons] at hes
    rw [List.flatMap_cons, List.length_append, List.any_cons]
    by_cases hAny : tags.any (fun tr => tr.id == tid && tr.tag == t) = true
    · have hle : (tags.filter (fun tr => tr.id == tid && tr.tag == t)).length ≤ 1 := by
        have hmono := List.countP_mono_left
          (l := tags) (p := fun tr => tr.id == tid && tr.tag == t)
          (q := fun tr => tr.id == tid)
          (fun tr _ hp => (Bool.and_eq_true .. ▸ hp).1)
        rw [List.countP_eq_length_filter, List.countP_eq_length_filter] at hmono
        exact le_trans hmono (length_filter_key_le_one tags (fun tr => tr.id) tid hid)
      obtain ⟨tr, htr, hptr⟩ := List.any_eq_true.mp hAny
      have hpos : (tags.filter (fun tr => tr.id == tid && tr.tag == t)).length ≠ 0 := by
        intro h0
        have := List.filter_eq_nil_iff.mp (List.length_eq_zero.mp h0) tr htr
        exact this hptr
      have hone : (tags.filter (fun tr => tr.id == tid && tr.tag == t)).length = 1 := by omega
      have hrest : (rest.flatMap (fun tid2 =>
          tags.filter (fun tr => tr.id == tid2 && tr.tag == t))).length = 0 := by
        rw [List.length_eq_zero, List.flatMap_eq_nil_iff]
        intro tid2 h2
        rw [List.filter_eq_nil_iff]
        intro tr2 htr2 hp2
        rw [Bool.and_eq_true, beq_iff_eq, beq_iff_eq] at hptr hp2
        have htreq : tr = tr2 :=
          List.inj_on_of_nodup_map hstr htr htr2 (by rw [hptr.2, hp2.2])
        apply hes.1
        have : tid = tid2 := by rw [← hptr.1, htreq, hp2.1]
        exact this ▸ h2
      rw [hone, hrest, if_pos (by rw [hAny]; simp)]
    · have hnil : tags.filter (fun tr => tr.id == tid && tr.tag == t) = [] := by
        rw [List.filter_eq_nil_iff]
        intro tr htr hp
        exact hAny (List.any_eq_true.mpr ⟨tr, htr, hp⟩)
      rw [hnil]
      simp only [List.length_nil, Nat.zero_add]
      rw [ih hes.2]
      simp [hAny]

/-- Any-over-map unfolds to any of the composition. -/
theorem any_map_fun {α β : Type} (l : List α) (f : α → β) (p : β → Bool) :
    (l.map f).any p = l.any (fun x => p (f x)) := by
  induction l with
  | nil => rfl
  | cons a t ih => simp [List.any_cons, ih]

/-- Any-over-filter unfolds to any of the conjunction. -/
theorem any_filter_fun {α : Type} (l : List α) (p q : α → Bool) :
    (l.filter p).any q = l.any (fun x => p x && q x) := by
  induction l with
  | nil => rfl
  | cons a t ih =>
    rw [List.filter_cons]
    by_cases hp : p a = true
    · simp [hp, List.any_cons, ih]
    · simp [hp, List.any_cons, ih]

/-- The tag-filter factor of `count_by_filters` is the 0/1 indicator of the
article carrying the tag, given the junction-table primary key and tag-table
uniqueness. -/
theorem tagFactor_ite (db : DB) (hjun : (db.articleTags.map (fun e => (e.article_id, e.tag_id))).Nodup)
    (hid : (db.tags.map (fun tr => tr.id)).Nodup)
    (hstr : (db.tags.map (fun tr => tr.tag)).Nodup) (t : String) (a : ArticleRow) :
    ((db.articleTags.filter (fun e => e.article_id == a.id)).flatMap
        (fun e => db.tags.filter (fun tr => tr.id == e.tag_id && tr.tag == t))).length
      = if db.articleTags.any (fun e =>
            e.article_id == a.id && db.tags.any (fun tr => tr.id == e.tag_id && tr.tag == t))
        then 1 else 0 := by
  have hmapped :
      (db.articleTags.filter (fun e => e.article_id == a.id)).flatMap
          (fun e => db.tags.filter (fun tr => tr.id == e.tag_id && tr.tag == t))
        = ((db.articleTags.filter (fun e => e.article_id == a.id)).map (fun e => e.tag_id)).flatMap
            (fun tid => db.tags.filter (fun tr => tr.id == tid && tr.tag == t)) := by
    rw [List.flatMap_map]
  rw [hmapped,
      tag_join_length db.tags t _
        (nodup_key2_of_filter_key1 db.articleTags (fun e => e.article_id) (fun e => e.tag_id) a.id hjun)
        hid hstr]
  have hcond :
      (((db.articleTags.filter (fun e => e.article_id == a.id)).map (fun e => e.tag_id)).any
          (fun tid => db.tags.any (fun tr => tr.id == tid && tr.tag == t)))
        = db.articleTags.any (fun e =>
            e.article_id == a.id && db.tags.any (fun tr => tr.id == e.tag_id && tr.tag == t)) := by
    rw [any_map_fun, any_filter_fun]
  rw [hcond]

/-- The author-filter factor of `count_by_filters` is a 0/1 indicator, given
unique user ids. -/
theorem authorFactor_ite (db : DB) (hid : (db.users.map (fun u => u.id)).Nodup)
    (an : String) (a : ArticleRow) :
    (db.users.filter (fun u => u.id == a.author_id && u.username == an)).length
      = if db.users.any (fun u => u.id == a.author_id && u.username == an) then 1 else 0 := by
  apply length_filter_eq_ite_any
  have hmono := List.countP_mono_left
    (l := db.users) (p := fun u => u.id == a.author_id && u.username == an)
    (q := fun u => u.id == a.author_id)
    (fun u _ hp => (Bool.and_eq_true .. ▸ hp).1)
  rw [List.countP_eq_length_filter, List.countP_eq_length_filter] at hmono
  exact le_trans hmono (length_filter_key_le_one db.users (fun u => u.id) a.author_id hid)

/-- The favorited-filter factor of `count_by_filters` is a 0/1 indicator,
given the favorite table's composite primary key. -/
theorem favFactor_ite (db : DB)
    (hfav : (db.favorites.map (fun fv => (fv.article_id, fv.user_id))).Nodup)
    (uid : Nat) (a : ArticleRow) :
    (db.favorites.filter (fun fv => fv.article_id == a.id && fv.user_id == uid)).length
      = if db.favorites.any (fun fv => fv.article_id == a.id && fv.user_id == uid) then 1 else 0 :=
  length_filter_eq_ite_any _ _
    (length_filter_pair_le_one db.favorites (fun fv => fv.article_id) (fun fv => fv.user_id)
      a.id uid hfav)

/-- The per-article factor of `count_by_followings` is a 0/1 indicator, given
the follower table's composite primary key. -/
theorem followerFactor_ite (db : DB)
    (hfol : (db.followers.map (fun fr => (fr.follower_id, fr.following_id))).Nodup)
    (uid : Nat) (a : ArticleRow) :
    (db.followers.filter (fun fr => fr.following_id == a.author_id && fr.follower_id == uid)).length
      = if db.followers.any (fun fr => fr.following_id == a.author_id && fr.follower_id == uid)
        then 1 else 0 :=
  length_filter_eq_ite_any _ _
    (length_filter_pair_le_one db.followers (fun fr => fr.following_id) (fun fr => fr.follower_id)
      a.author_id uid
      (nodup_map_pair_swap db.followers (fun fr => fr.follower_id) (fun fr => fr.following_id) hfol))

/-- Combining three 0/1 factors. -/
theorem mul3_ite_eq (x y z : Nat) (b1 b2 b3 : Bool)
    (hx : x = if b1 then 1 else 0) (hy : y = if b2 then 1 else 0)
    (hz : z = if b3 then 1 else 0) :
    x * y * z = if (b1 && b2 && b3) then 1 else 0 := by
  subst hx; subst hy; subst hz
  exact mul_ite3 b1 b2 b3

/-- C7 (amended): both v2 listing queries report a `total_count` equal to the
number of articles matching the filter with limit and offset ignored — for the
feed, the articles whose author has a follower edge from the viewer; for the
global list, the articles matching the AND-combined tag / author / favorited
filters — given the schema's key uniqueness. (The newest-created-first
ordering half of the original claim fails: neither v2 query has an ORDER BY;
see the counterexample.) -/
theorem listings_total_count_ignores_pagination (db : DB) (inv : DBInv db)
    (user_id limit offset : Nat) (tag author favorited : Option String) :
    (ArticleService.list_by_followings_v2 db user_id limit offset).articles_count
        = (db.articles.filter (fun a => db.followers.any (fun fr =>
            fr.following_id == a.author_id && fr.follower_id == user_id))).length
    ∧ (ArticleService.list_by_filters_v2 db limit offset tag author favorited).articles_count
        = (db.articles.filter (matchesFilter db tag author favorited)).length := by
  constructor
  · show ArticleService.count_by_followings db user_id = _
    unfold ArticleService.count_by_followings
    rw [← List.countP_eq_length_filter]
    exact sum_map_eq_countP_of_factors _ _ _
      (fun a _ => followerFactor_ite db inv.followers_nodup user_id a)
  · show ArticleService.count_by_filters db tag author favorited = _
    unfold ArticleService.count_by_filters
    rw [← List.countP_eq_length_filter]
    refine sum_map_eq_countP_of_factors _ _ _ (fun a _ => ?_)
    rcases tag with _ | t <;> rcases author with _ | an <;> rcases favorited with _ | fn <;>
      unfold matchesFilter <;> dsimp only
    · rfl
    · cases hf : db.users.find? (fun u => u.username == fn) with
      | none => simp
      | some u =>
        dsimp only
        rw [favFactor_ite db inv.favorites_nodup u.id a]
        simp
    · rw [authorFactor_ite db inv.users_id_nodup an a]
      simp
    · cases hf : db.users.find? (fun u => u.username == fn) with
      | none => simp
      | some u =>
        dsimp only
        exact mul3_ite_eq _ _ _ true _ _ rfl
          (authorFactor_ite db inv.users_id_nodup an a)
          (favFactor_ite db inv.favorites_nodup u.id a)
    · rw [tagFactor_ite db inv.articleTags_nodup inv.tags_id_nodup inv.tags_str_nodup t a]
      simp
    · cases hf : db.users.find? (fun u => u.username == fn) with
      | none => simp
      | some u =>
        dsimp only
        exact mul3_ite_eq _ _ _ _ true _
          (tagFactor_ite db inv.articleTags_nodup inv.tags_id_nodup inv.tags_str_nodup t a)
          rfl
          (favFactor_ite db inv.favorites_nodup u.id a)
    · exact mul3_ite_eq _ _ _ _ _ true
        (tagFactor_ite db inv.articleTags_nodup inv.tags_id_nodup inv.tags_str_nodup t a)
        (authorFactor_ite db inv.users_id_nodup an a)
        rfl
    · cases hf : db.users.find? (fun u => u.username == fn) with
      | none => simp
      | some u =>
        dsimp only
        exact mul3_ite_eq _ _ _ _ _ _
          (tagFactor_ite db inv.articleTags_nodup inv.tags_id_nodup inv.tags_str_nodup t a)
          (authorFactor_ite db inv.users_id_nodup an a)
          (favFactor_ite db inv.favorites_nodup u.id a)

/-- C7 (counterexample to the ordering half): the feed query behind
`/articles/feed` (`list_by_followings_v2`) has no ORDER BY, so with two
articles of a followed author stored oldest-first, the returned page is
oldest-first — not newest-created first. -/
theorem feed_page_not_newest_first :
    (ArticleService.list_by_followings_v2 dbFeed 10 20 0).articles = [artFeedOld, artFeedNew]
    ∧ artFeedOld.created_at < artFeedNew.created_at
    ∧ newestFirst (ArticleService.list_by_followings_v2 dbFeed 10 20 0).articles = false := by
  refine ⟨by decide, by decide, by decide⟩

/-- Witness for the amended C7 theorem at a concrete database. -/
theorem listings_total_count_ignores_pagination_witness :
    (ArticleService.list_by_followings_v2 dbFeed 10 20 0).articles_count
        = (dbFeed.articles.filter (fun a => dbFeed.followers.any (fun fr =>
            fr.following_id == a.author_id && fr.follower_id == 10))).length
    ∧ (ArticleService.list_by_filters_v2 dbFeed 20 0 (some ("t")) none none).articles_count
        = (dbFeed.articles.filter (matchesFilter dbFeed (some ("t")) none none)).length :=
  ⟨(listings_total_count_ignores_pagination dbFeed
      ⟨by decide, by decide, by decide, by decide, by decide, by decide, by decide⟩
      10 20 0 (some ("t")) none none).1,
   (listings_total_count_ignores_pagination dbFeed
      ⟨by decide, by decide, by decide, by decide, by decide, by decide, by decide⟩
      10 20 0 (some ("t")) none none).2⟩

/-- C8: when the `favorited` filter names a username with no matching user,
the global list returns an empty page and a total of 0 — and it returns a
value (the code path raises nothing). -/
theorem list_by_filters_unknown_favoriter_empty (db : DB) (limit offset : Nat)
    (tag author : Option String) (name : String)
    (h : ∀ u ∈ db.users, u.username ≠ name) :
    (ArticleService.list_by_filters_v2 db limit offset tag author (some name)).articles = []
    ∧ (ArticleService.list_by_filters_v2 db limit offset tag author (some name)).articles_count = 0 := by
  have hfind : db.users.find? (fun u => u.username == name) = none := by
    rw [List.find?_eq_none]
    intro u hu
    simp only [beq_iff_eq]
    exact fun he => h u hu he
  constructor
  · show ((db.articles.filter (filtersRowExists db tag author (some name))).drop offset).take limit = []
    have hfil : db.articles.filter (filtersRowExists db tag author (some name)) = [] := by
      rw [List.filter_eq_nil_iff]
      intro a _
      simp [filtersRowExists, filtersRowConds, hfind]
    rw [hfil]
    simp
  · show ArticleService.count_by_filters db tag author (some name) = 0
    unfold ArticleService.count_by_filters
    apply List.sum_eq_zero
    intro x hx
    obtain ⟨a, _, rfl⟩ := List.mem_map.mp hx
    dsimp only
    rw [hfind]
    simp

/-- C1: favoriting twice (the `favorite_article` endpoint) leaves exactly one
favorite edge for the (user, article) pair and a favorites count of 1 — the
existence check before the insert makes the repeat call a no-op on the data —
but the second call (like the first) ends in an unhandled exception instead of
returning without error, because the handler's response-building step calls
the removed `ArticleService._build_article_schema_with_author`. -/
theorem favorite_twice_single_edge_but_errors :
    (((favorite_article ((favorite_article dbFav 2 ("hello-world-c0de") 1).1) 2 ("hello-world-c0de") 2).1).favorites.filter
        (fun f => f.user_id == 2 && f.article_id == 1)).length = 1
    ∧ FavoriteService.count
        ((favorite_article ((favorite_article dbFav 2 ("hello-world-c0de") 1).1) 2 ("hello-world-c0de") 2).1) 1 = 1
    ∧ (favorite_article ((favorite_article dbFav 2 ("hello-world-c0de") 1).1) 2 ("hello-world-c0de") 2).2
        = FavoriteOutcome.unhandledException := by
  refine ⟨by decide, by decide, by decide⟩

/-- C2: deleting a comment as a non-author fails — but with the
`UserNotFoundException` kind (raised with an authorization message), not a
not-authorized kind; deleting as the author succeeds and a subsequent listing
of the article's comments no longer contains it. -/
theorem delete_comment_nonauthor_wrong_error_kind :
    CommentService.delete_comment_from_article dbCom ("hello-world-c0de") 5 2
        = .error .userNotFound
    ∧ AppError.userNotFound ≠ AppError.notAuthorized
    ∧ CommentService.delete_comment_from_article dbCom ("hello-world-c0de") 5 1 = .ok dbComDel
    ∧ CommentService.get_comments_for_article dbComDel ("hello-world-c0de") none = .ok [] := by
  refine ⟨rfl, by decide, rfl, rfl⟩

/-- C3: authentication failure is undifferentiated — a run where no user
carries the email and a run where the email resolves but the password fails
verification both fail with the single `IncorrectLoginInputException` kind. -/
theorem sign_in_failure_undifferentiated (verify : String → String → Bool)
    (db1 db2 : DB) (e1 p1 e2 p2 : String) (u : UserRow)
    (h1 : UserService.get_by_email_or_none db1 e1 = none)
    (h2 : UserService.get_by_email_or_none db2 e2 = some u)
    (h3 : verify p2 u.password_hash = false) :
    UserAuthService.sign_in_user verify db1 e1 p1 = .error .incorrectLoginInput
    ∧ UserAuthService.sign_in_user verify db2 e2 p2 = .error .incorrectLoginInput := by
  constructor
  · unfold UserAuthService.sign_in_user UserService.get_by_email
    rw [h1]
  · unfold UserAuthService.sign_in_user UserService.get_by_email
    rw [h2]
    simp [h3]

/-- Witness for the undifferentiated-failure theorem: an unknown email on the
empty database, and a known email with a failing verifier. -/
theorem sign_in_failure_undifferentiated_witness :
    UserAuthService.sign_in_user (fun _ _ => false) dbEmpty ("zed@mail") ("pw")
        = .error .incorrectLoginInput
    ∧ UserAuthService.sign_in_user (fun _ _ => false) dbFav ("ann@mail") ("pw")
        = .error .incorrectLoginInput :=
  sign_in_failure_undifferentiated (fun _ _ => false) dbEmpty dbFav
    ("zed@mail") ("pw") ("ann@mail") ("pw") uAnn (by decide) (by decide) rfl

/-- C4: registration with an already-used email fails with the
`EmailAlreadyTakenException` kind; with a free email but an already-used
username it fails with the `UserNameAlreadyTakenException` kind. Both checks
are queries run before the insert, and the error return carries no new
database state — no user row is created. -/
theorem register_duplicate_email_username_errors (hash : String → String) (db : DB)
    (item : UserRegistrationData) (now newId : Nat) :
    ((∃ u ∈ db.users, u.email = item.email) →
      UserService.add hash db item now newId = .error .emailAlreadyTaken)
    ∧ ((∀ u ∈ db.users, u.email ≠ item.email) → (∃ u ∈ db.users, u.username = item.username) →
      UserService.add hash db item now newId = .error .userNameAlreadyTaken) := by
  constructor
  · rintro ⟨u, hu, he⟩
    have hs : (db.users.find? (fun w => w.email == item.email)).isSome :=
      List.find?_isSome.mpr ⟨u, hu, by simp [he]⟩
    obtain ⟨v, hv⟩ := Option.isSome_iff_exists.mp hs
    unfold UserService.add UserService.get_by_email_or_none
    rw [hv]
  · rintro hno ⟨u, hu, hn⟩
    have he : db.users.find? (fun w => w.email == item.email) = none := by
      rw [List.find?_eq_none]
      intro w hw
      simp only [beq_iff_eq]
      exact fun heq => hno w hw heq
    have hs : (db.users.find? (fun w => w.username == item.username)).isSome :=
      List.find?_isSome.mpr ⟨u, hu, by simp [hn]⟩
    obtain ⟨v, hv⟩ := Option.isSome_iff_exists.mp hs
    unfold UserService.add UserService.get_by_email_or_none UserService.get_by_username_or_none
    rw [he, hv]

/-- Witness for the registration-conflict theorem: both failure shapes on a
two-user database. -/
theorem register_duplicate_email_username_errors_witness :
    UserService.add (fun s => s) dbFav ⟨("zed"), ("ann@mail"), ("pw")⟩ 0 9
        = .error .emailAlreadyTaken
    ∧ UserService.add (fun s => s) dbFav ⟨("bob"), ("new@mail"), ("pw")⟩ 0 9
        = .error .userNameAlreadyTaken :=
  ⟨(register_duplicate_email_username_errors (fun s => s) dbFav
      ⟨("zed"), ("ann@mail"), ("pw")⟩ 0 9).1 ⟨uAnn, by decide, rfl⟩,
   (register_duplicate_email_username_errors (fun s => s) dbFav
      ⟨("bob"), ("new@mail"), ("pw")⟩ 0 9).2
     (by decide) ⟨uBob, by decide, rfl⟩⟩

/-- C5: an update whose patch carries a (nonempty) tag list does not replace
the tag set — the service's tag path builds `on_conflict_do_nothing` on the
generic insert construct and dies with an unhandled `AttributeError`, leaving
the database unchanged (the session is rolled back). -/
theorem update_by_slug_tag_replacement_crashes :
    ArticleService.update_by_slug dbTagUpd ("post-z7") patchTags 9
        = (dbTagUpd, UpdateOutcome.unhandledException) := by
  decide

/-- C6: two create calls with the same title yield distinct slugs — each call
appends its generated disambiguating code to the same base slug, and distinct
codes give distinct slugs, with no retry loop involved. -/
theorem add_same_title_distinct_slugs (db : DB) (author1 author2 : Nat)
    (item : CreateArticleData) (c1 c2 : String) (n1 n2 id1 id2 : Nat) (h : c1 ≠ c2) :
    (ArticleService.add db author1 item c1 n1 id1).2.slug
      ≠ (ArticleService.add (ArticleService.add db author1 item c1 n1 id1).1
          author2 item c2 n2 id2).2.slug := by
  intro hEq
  apply h
  have hslug : make_slug_from_title item.title c1 = make_slug_from_title item.title c2 := hEq
  unfold make_slug_from_title at hslug
  have hd := congrArg String.data hslug
  simp only [String.data_append, List.append_assoc] at hd
  have hd1 := List.append_cancel_left hd
  have hd2 := List.append_cancel_left hd1
  cases c1 with
  | mk d1 =>
    cases c2 with
    | mk d2 => exact congrArg String.mk hd2

/-- Witness for the distinct-slug theorem at concrete codes. -/
theorem add_same_title_distinct_slugs_witness :
    (ArticleService.add dbEmpty 1 ⟨("T"), ("d"), ("b"), []⟩ ("aa") 0 1).2.slug
      ≠ (ArticleService.add (ArticleService.add dbEmpty 1 ⟨("T"), ("d"), ("b"), []⟩ ("aa") 0 1).1
          1 ⟨("T"), ("d"), ("b"), []⟩ ("bb") 0 2).2.slug :=
  add_same_title_distinct_slugs dbEmpty 1 1 ⟨("T"), ("d"), ("b"), []⟩ ("aa") ("bb") 0 0 1 2
    (by decide)

/-- C9 (counterexample): a validly signed, unexpired token whose payload
lacks the `exp` claim makes `parse_jwt_token` fail with an uncaught Python
`KeyError` (at `payload["exp"]`) — a failure that is not the
`IncorrectJWTTokenException` kind, so not every failing verification fails
with the invalid-token kind. -/
theorem parse_jwt_token_missing_exp_keyerror :
    AuthTokenService.parse_jwt_token 100
        (JwtToken.signed { user_id := some 1, username := some ("u"), exp := none })
      = .error .keyErrorExp
    ∧ ParseFailure.keyErrorExp ≠ ParseFailure.incorrectJWTToken :=
  ⟨rfl, by decide⟩

/-- C9 (amended): every token that is malformed, carries an invalid
signature, or is expired fails with the `IncorrectJWTTokenException` kind; and
every call either returns the embedded claims, fails with that kind, or — only
for a signed payload missing the `exp` claim — fails with an uncaught
`KeyError`. -/
theorem parse_jwt_token_failure_classification (now : Nat) (t : JwtToken) :
    ((t = .invalid ∨ ∃ p e, t = .signed p ∧ p.exp = some e ∧ e < now) →
      AuthTokenService.parse_jwt_token now t = .error .incorrectJWTToken)
    ∧ ((∃ c, AuthTokenService.parse_jwt_token now t = .ok c)
        ∨ AuthTokenService.parse_jwt_token now t = .error .incorrectJWTToken
        ∨ (∃ p, t = .signed p ∧ p.exp = none
            ∧ AuthTokenService.parse_jwt_token now t = .error .keyErrorExp)) := by
  constructor
  · rintro (rfl | ⟨p, e, rfl, hexp, hlt⟩)
    · rfl
    · simp [AuthTokenService.parse_jwt_token, jwtDecode, hexp, hlt]
  · cases t with
    | invalid => exact Or.inr (Or.inl rfl)
    | signed p =>
      cases hexp : p.exp with
      | none =>
        refine Or.inr (Or.inr ⟨p, rfl, hexp, ?_⟩)
        simp [AuthTokenService.parse_jwt_token, jwtDecode, hexp]
      | some e =>
        by_cases hlt : e < now
        · refine Or.inr (Or.inl ?_)
          simp [AuthTokenService.parse_jwt_token, jwtDecode, hexp, hlt]
        · cases hu : p.user_id with
          | none =>
            refine Or.inr (Or.inl ?_)
            simp [AuthTokenService.parse_jwt_token, jwtDecode, hexp, hlt, hu]
          | some uid =>
            cases hn : p.username with
            | none =>
              refine Or.inr (Or.inl ?_)
              simp [AuthTokenService.parse_jwt_token, jwtDecode, hexp, hlt, hu, hn]
            | some un =>
              refine Or.inl ⟨{ user_id := uid, username := un, exp := e }, ?_⟩
              simp [AuthTokenService.parse_jwt_token, jwtDecode, hexp, hlt, hu, hn]

/-- Witness for the token-failure classification at a concrete invalid token
and a concrete expired token. -/
theorem parse_jwt_token_failure_classification_witness :
    AuthTokenService.parse_jwt_token 5 JwtToken.invalid = .error .incorrectJWTToken
    ∧ AuthTokenService.parse_jwt_token 100
        (JwtToken.signed { user_id := some 1, username := some ("u"), exp := some 7 })
      = .error .incorrectJWTToken :=
  ⟨(parse_jwt_token_failure_classification 5 JwtToken.invalid).1 (Or.inl rfl),
   (parse_jwt_token_failure_classification 100
      (JwtToken.signed { user_id := some 1, username := some ("u"), exp := some 7 })).1
     (Or.inr ⟨{ user_id := some 1, username := some ("u"), exp := some 7 }, 7,
       rfl, rfl, by decide⟩)⟩

/-- C10: article lookup by slug is not exact-match — whenever some stored
slug equals the requested slug or contains the unique part extracted from it,
`get_by_slug` returns an article; on a concrete database a request for
`goodbye-abc123` returns the article whose slug is `hello-world-abc123`
(which contains the unique part `abc123`), an article whose slug differs from
the requested one, instead of failing with `ArticleNotFoundException`. -/
theorem get_by_slug_fuzzy_match :
    (∀ (db : DB) (slug : String),
      db.articles.any (fun a =>
          a.slug == slug || str_contains a.slug (get_slug_unique_part slug)) = true →
      ∃ a, ArticleService.get_by_slug db slug = .ok a)
    ∧ ArticleService.get_by_slug dbFuzzy ("goodbye-abc123") = .ok artFuzzy
    ∧ ArticleService.get_by_slug_or_none dbFuzzy ("goodbye-abc123") = some artFuzzy
    ∧ artFuzzy.slug ≠ ("goodbye-abc123") := by
  refine ⟨?_, rfl, rfl, by decide⟩
  intro db slug h
  obtain ⟨a, ha, hp⟩ := List.any_eq_true.mp h
  have hs : (db.articles.find? (fun a =>
      a.slug == slug || str_contains a.slug (get_slug_unique_part slug))).isSome :=
    List.find?_isSome.mpr ⟨a, ha, hp⟩
  obtain ⟨b, hb⟩ := Option.isSome_iff_exists.mp hs
  refine ⟨b, ?_⟩
  unfold ArticleService.get_by_slug ArticleService.get_by_slug_row
  rw [hb]

/-- Witness for the fuzzy-lookup theorem: the membership hypothesis holds on
the concrete database, so some article is returned. -/
theorem get_by_slug_fuzzy_match_witness :
    ∃ a, ArticleService.get_by_slug dbFuzzy ("goodbye-abc123") = .ok a :=
  get_by_slug_fuzzy_match.1 dbFuzzy ("goodbye-abc123") rfl

/-- Witness for the unknown-favoriter theorem: the name `ghost` matches no
user of the concrete database. -/
theorem list_by_filters_unknown_favoriter_empty_witness :
    (ArticleService.list_by_filters_v2 dbFeed 20 0 none none (some ("ghost"))).articles = []
    ∧ (ArticleService.list_by_filters_v2 dbFeed 20 0 none none (some ("ghost"))).articles_count = 0 :=
  list_by_filters_unknown_favoriter_empty dbFeed 20 0 none none ("ghost") (by decide)
